import Mathlib

/-!
Shallow embedding of the PR readiness classifier and its supporting
heuristics from the `process_status` scripts.

The embedded functions mirror, statement by statement:
  * `check_pr_readiness` and `get_pr_review_readiness_analysis`
    (scripts/process_status/github_utils.py),
  * `pr_status`, `action_needed`, `priority_for_action`,
    `analyze_copilot_progress` (scripts/process_status/analysis.py),
  * the per-PR assembly loop of `collect_pr_data` and the counting in
    `generate_summary` (scripts/process_status/core.py).

External effects (shelling out to `gh`/`git`, the wall clock) are passed in
as explicit function parameters: `fetchData`, `fetchReadiness`,
`branchProg`, `commitsOf` stand for the per-PR query results, and
`elapsedOf` stands for `get_elapsed_minutes` evaluated at the current time.
-/

namespace ProcessStatus

/-- Python `needle in hay` on the underlying character lists:
`hasSubstr hay needle` is true iff `needle` occurs contiguously in `hay`. -/
def hasSubstr : List Char → List Char → Bool
  | [], needle => needle.isEmpty
  | h :: t, needle => needle.isPrefixOf (h :: t) || hasSubstr t needle

/-- Python's `needle in hay` for strings. -/
def strContains (hay needle : String) : Bool :=
  hasSubstr hay.data needle.data

/-- Python's `str.lower()` (character-wise lowercasing, which agrees with
CPython on the ASCII keyword sets used here). -/
def lowerStr (s : String) : String :=
  ⟨s.data.map Char.toLower⟩

/-- `completion_indicators` from `check_pr_readiness`. -/
def completion_indicators : List String :=
  ["Complete", "Ready for review", "Implementation complete",
   "Final", "Done", "Finished", "All requirements met",
   "Feature complete", "Implementation done"]

/-- `planning_indicators` from `check_pr_readiness`. -/
def planning_indicators : List String :=
  ["Initial plan", "WIP", "Work in progress", "Planning",
   "Analysis", "Setup", "Preparation", "Initial"]

/-- `commits[-3:] if len(commits) >= 3 else commits`. -/
def latestCommits (commits : List String) : List String :=
  if commits.length ≥ 3 then commits.drop (commits.length - 3) else commits

/-- One entry of the `--stat` parse produced by `get_pr_detailed_changes`
(carried through `check_pr_readiness` unexamined). -/
structure FileChange where
  file : String
  changes : String
deriving DecidableEq, Repr

/-- The dict returned by `check_pr_readiness` (github_utils.py).
`commits` is the list of `messageHeadline` strings of the PR's commits,
`changes` the list of changed file names. -/
structure ReadinessCheck where
  has_completion_indicators : Bool
  has_planning_indicators : Bool
  yarn_lock_only : Bool
  has_real_implementation : Bool
  file_count : Nat
  latest_commit_messages : List String
  changed_files : List String
  detailed_changes : List FileChange
deriving DecidableEq, Repr

/-- `check_pr_readiness` (github_utils.py, lines 111-163), with the
`gh` query results passed in as `commits`, `changes`, `detailed`. -/
def check_pr_readiness (commits changes : List String)
    (detailed : List FileChange) : ReadinessCheck :=
  let latest := latestCommits commits
  let has_completion := latest.any fun c =>
    completion_indicators.any fun ind => strContains (lowerStr c) (lowerStr ind)
  let has_planning := latest.any fun c =>
    planning_indicators.any fun ind => strContains (lowerStr c) (lowerStr ind)
  let flags : Bool × Bool :=
    match changes with
    | [f] => (strContains f "yarn.lock", false)
    | _ :: _ :: _ =>
        let non_lock_files := changes.filter fun f =>
          !(strContains f "yarn.lock") && !(strContains f "package-lock.json")
        (false, !non_lock_files.isEmpty)
    | [] => (false, false)
  { has_completion_indicators := has_completion
    has_planning_indicators := has_planning
    yarn_lock_only := flags.1
    has_real_implementation := flags.2
    file_count := changes.length
    latest_commit_messages := latest
    changed_files := changes
    detailed_changes := detailed }

/-- The PR fields `get_pr_review_readiness_analysis` reads from
`get_pr_data` output (`.get` defaults already applied). -/
structure PRData where
  isDraft : Bool
  mergeable : String
  additions : Nat
  deletions : Nat
deriving DecidableEq, Repr

/-- The dict returned by `get_pr_review_readiness_analysis` on its
non-error path. -/
structure ReadinessAnalysis where
  pr_number : Nat
  ready_for_review : Bool
  recommendation : String
  confidence : String
  reasons : List String
  is_draft : Bool
  mergeable : String
  stats_additions : Nat
  stats_deletions : Nat
  stats_files_changed : Nat
  analysis : ReadinessCheck
deriving DecidableEq, Repr

/-- `get_pr_review_readiness_analysis` (github_utils.py, lines 165-226) with
`pr_data` already found; the commit/changed-file query results are passed in.
Mirrors the mutation chain: the verdict fields start at
`(false, "wait", "low", [])` and exactly one branch of the priority chain
overwrites them and appends its reason. -/
def get_pr_review_readiness_analysis (pr_num : Nat) (pr_data : PRData)
    (commits changes : List String) (detailed : List FileChange) :
    ReadinessAnalysis :=
  let readiness_check := check_pr_readiness commits changes detailed
  let is_draft := pr_data.isDraft
  let mergeable := pr_data.mergeable
  let verdict : Bool × String × String × List String :=
    if mergeable == "CONFLICTING" then
      (false, "resolve_conflicts", "low", ["Has merge conflicts"])
    else if readiness_check.yarn_lock_only then
      (false, "wait", "low", ["Only yarn.lock changes - likely setup phase"])
    else if readiness_check.has_completion_indicators && !is_draft then
      (true, "review_ready", "high", ["Has completion indicators in commits"])
    else if readiness_check.has_real_implementation && !is_draft then
      (true, "review_ready", "medium", ["Has substantial implementation"])
    else if is_draft && readiness_check.has_completion_indicators then
      (false, "convert_to_ready", "high",
       ["Claims completion but still marked as draft"])
    else if readiness_check.has_planning_indicators then
      (false, "wait", "low", ["Still in planning/setup phase"])
    else
      (false, "investigate", "low", ["Unclear status - needs manual review"])
  { pr_number := pr_num
    ready_for_review := verdict.1
    recommendation := verdict.2.1
    confidence := verdict.2.2.1
    reasons := verdict.2.2.2
    is_draft := is_draft
    mergeable := mergeable
    stats_additions := pr_data.additions
    stats_deletions := pr_data.deletions
    stats_files_changed := readiness_check.file_count
    analysis := readiness_check }

/-- `pr_status` (analysis.py, lines 16-32): the fallback status classifier.
Python's `any(x in commit_msg for x in [...])` becomes a `List.any` over
`strContains`. -/
def pr_status (commit_msg : String) (is_draft : Bool)
    (additions deletions : Nat) : String :=
  let has_implementation :=
    decide (additions + deletions > 1000) &&
      !(additions == 3510 && deletions == 5146)
  if (["Complete", "Ready for review", "Implementation complete"].any
        fun x => strContains commit_msg x) && !is_draft then
    "ready_for_review"
  else if is_draft && !has_implementation then "planning"
  else if is_draft && has_implementation then "draft"
  else if ["Initial plan", "WIP"].any (fun x => strContains commit_msg x) then
    "planning"
  else if has_implementation then "in_progress"
  else "planning"

/-- `action_needed` (analysis.py, lines 34-44): the fallback action
derivation. `elapsed` is an `Int` since `get_elapsed_minutes` truncates a
signed difference. -/
def action_needed (mergeable status : String) (elapsed : Int) : String :=
  if mergeable == "CONFLICTING" then "resolve_conflicts"
  else if status == "ready_for_review" && mergeable == "MERGEABLE" then
    "review_ready"
  else if status == "planning" && elapsed > 30 then "investigate"
  else if elapsed > 60 then "investigate"
  else "wait"

/-- `priority_for_action` (analysis.py, lines 46-54). -/
def priority_for_action (action : String) : String :=
  if action == "resolve_conflicts" then "high"
  else if action == "review_ready" then "medium"
  else if action == "investigate" then "medium"
  else "normal"

/-- The PR fields `analyze_copilot_progress` reads from the related PR's
`get_pr_data` output (`.get` defaults already applied). -/
structure CopilotPRData where
  createdAt : String
  additions : Nat
  deletions : Nat
  isDraft : Bool
  mergeable : String
deriving DecidableEq, Repr

/-- The dict returned by `get_branch_progress` (git_utils.py), restricted to
the keys `analyze_copilot_progress` and `collect_pr_data` read. -/
structure BranchProgress where
  commits : Nat
  latest_commit : String
deriving DecidableEq, Repr

/-- The dict returned by `analyze_copilot_progress`; keys absent on a given
Python return path are `none`. -/
structure CopilotProgress where
  status : String
  action : String
  priority : String
  message : Option String
  elapsed_minutes : Option Int
  commit_count : Option Nat
  latest_commit : Option String
deriving DecidableEq, Repr

/-- `analyze_copilot_progress` (analysis.py, lines 56-91). `elapsedOf`
stands for `get_elapsed_minutes` evaluated at the current instant;
`issue_num` is accepted and unused exactly as in the source. -/
def analyze_copilot_progress (elapsedOf : String → Int) (issue_num : Nat)
    (pr_data : Option CopilotPRData) (branch_progress : BranchProgress) :
    CopilotProgress :=
  match pr_data with
  | none =>
      { status := "no_pr"
        action := "check_branch_activity"
        priority := "medium"
        message := some "No PR found, check if agent is working on feature branch"
        elapsed_minutes := none
        commit_count := none
        latest_commit := none }
  | some pd =>
      let elapsed := elapsedOf pd.createdAt
      let additions := pd.additions
      let deletions := pd.deletions
      let latest_commit := branch_progress.latest_commit
      if additions == 3510 && deletions == 5146 && elapsed > 20 then
        { status := "yarn_lock_only"
          action := "investigate"
          priority := "medium"
          message := some "PR contains only yarn.lock changes - may indicate setup phase or blocked work"
          elapsed_minutes := none
          commit_count := none
          latest_commit := none }
      else
        let status := pr_status latest_commit pd.isDraft additions deletions
        let action := action_needed pd.mergeable status elapsed
        let priority := priority_for_action action
        { status := status
          action := action
          priority := priority
          message := none
          elapsed_minutes := some elapsed
          commit_count := some branch_progress.commits
          latest_commit := some latest_commit }

/-- The PR fields `collect_pr_data` reads from `get_pr_data` output
(`.get` defaults already applied; `createdAt` keeps its possible `None`). -/
structure FullPRData where
  title : String
  isDraft : Bool
  mergeable : String
  createdAt : Option String
  headRefName : String
  additions : Nat
  deletions : Nat
deriving DecidableEq, Repr

/-- Result of a `get_pr_review_readiness_analysis` worker: the error dict
`{"error": "PR not found", "ready": False}` or the full analysis. An
exception in the worker is recorded as `none` by the caller, so the caller
sees an `Option ReadinessResult`. -/
inductive ReadinessResult where
  | err : ReadinessResult
  | ok : ReadinessAnalysis → ReadinessResult
deriving DecidableEq, Repr

/-- One element of the `prs` list built by `collect_pr_data` (core.py):
either a full entry or the `{"error": "PR not found", ...}` placeholder.
The nested `readiness_analysis` sub-dict is kept as the analysis record it
is copied from (`none` on the fallback path, as in the source). -/
inductive PREntry where
  | entry (pr_number : Nat) (title : String) (is_draft : Bool)
      (mergeable branch : String) (elapsed_minutes : Int)
      (latest_commit_msg pr_status action_needed priority : String)
      (additions deletions commit_count : Nat)
      (readiness : Option ReadinessAnalysis)
  | notFound (pr_number : Nat) (error action_needed priority : String)
deriving DecidableEq, Repr

/-- The body of the `for pr_num in pr_numbers` result loop of
`collect_pr_data` (core.py, lines 72-158) for one PR number.
`fetchData pr_num` / `fetchReadiness pr_num` are that PR's entries of
`pr_data_results` / `readiness_results` (`none` records a worker that
returned no data or raised); `branchProg`, `commitsOf`, `elapsedOf` stand
for `get_branch_progress`, `get_pr_commits` and `get_elapsed_minutes`. -/
def processOne (elapsedOf : String → Int)
    (branchProg : String → BranchProgress) (commitsOf : Nat → List String)
    (fetchData : Nat → Option FullPRData)
    (fetchReadiness : Nat → Option ReadinessResult) (pr_num : Nat) :
    PREntry :=
  match fetchData pr_num with
  | some pr_data =>
      let elapsed := match pr_data.createdAt with
        | some c => elapsedOf c
        | none => 0
      let branch_progress := branchProg pr_data.headRefName
      let commit_msg := branch_progress.latest_commit
      match fetchReadiness pr_num with
      | some (.ok ra) =>
          let status :=
            if ra.ready_for_review then "ready_for_review"
            else if pr_data.isDraft then "draft" else "in_progress"
          let action := ra.recommendation
          let priority :=
            if action == "resolve_conflicts" || action == "convert_to_ready"
            then "high"
            else if action == "review_ready" then "medium" else "normal"
          .entry pr_num pr_data.title pr_data.isDraft pr_data.mergeable
            pr_data.headRefName elapsed commit_msg status action priority
            pr_data.additions pr_data.deletions (commitsOf pr_num).length
            (some ra)
      | _ =>
          let status := pr_status commit_msg pr_data.isDraft
            pr_data.additions pr_data.deletions
          let action := action_needed pr_data.mergeable status elapsed
          let priority := priority_for_action action
          .entry pr_num pr_data.title pr_data.isDraft pr_data.mergeable
            pr_data.headRefName elapsed commit_msg status action priority
            pr_data.additions pr_data.deletions (commitsOf pr_num).length
            none
  | none => .notFound pr_num "PR not found" "investigate" "high"

/-- `collect_pr_data` (core.py, lines 27-160) after the worker pool has
drained: the result loop appends exactly one entry per element of
`pr_numbers`, each depending only on that number's query results (the
`if not pr_numbers: return []` early exit coincides with mapping over the
empty list). -/
def collect_pr_data (elapsedOf : String → Int)
    (branchProg : String → BranchProgress) (commitsOf : Nat → List String)
    (fetchData : Nat → Option FullPRData)
    (fetchReadiness : Nat → Option ReadinessResult)
    (pr_numbers : List Nat) : List PREntry :=
  pr_numbers.map
    (processOne elapsedOf branchProg commitsOf fetchData fetchReadiness)

/-- A `prs` element as read by `generate_summary` through `.get`: a key
absent from the dict (as on the error placeholder) is `none`;
`elapsed_minutes` defaults to `0` at the call site. -/
structure SummaryPR where
  mergeable : Option String
  pr_status : Option String
  elapsed_minutes : Option Int
deriving DecidableEq, Repr

/-- An `issues` element as read by `generate_summary` through `.get`. -/
structure SummaryIssue where
  status : Option String
  action : Option String
deriving DecidableEq, Repr

/-- The dict returned by `generate_summary`; `normal_progress_count` is a
Python `int` computed by subtraction, hence `Int` here. -/
structure Summary where
  blocked_count : Nat
  ready_for_review_count : Nat
  needs_investigation_count : Nat
  normal_progress_count : Int
  total_prs : Nat
  copilot_active_issues : Nat
  copilot_blocked_issues : Nat
  total_copilot_issues : Nat
deriving DecidableEq, Repr

/-- `generate_summary` (core.py, lines 203-224). -/
def generate_summary (prs : List SummaryPR) (issues : List SummaryIssue) :
    Summary :=
  let blocked_count :=
    (prs.filter fun pr => pr.mergeable == some "CONFLICTING").length
  let ready_count :=
    (prs.filter fun pr =>
      pr.pr_status == some "ready_for_review" &&
        pr.mergeable == some "MERGEABLE").length
  let investigate_count :=
    (prs.filter fun pr => pr.elapsed_minutes.getD 0 > 45).length
  let normal_count : Int :=
    (prs.length : Int) - blocked_count - ready_count - investigate_count
  let copilot_active :=
    (issues.filter fun i =>
      i.status == some "in_progress" || i.status == some "draft").length
  let copilot_blocked :=
    (issues.filter fun i => i.action == some "investigate").length
  { blocked_count := blocked_count
    ready_for_review_count := ready_count
    needs_investigation_count := investigate_count
    normal_progress_count := normal_count
    total_prs := prs.length
    copilot_active_issues := copilot_active
    copilot_blocked_issues := copilot_blocked
    total_copilot_issues := issues.length }

/-! Theorems about the classifiers. -/

/-- C1: for every input signal, if `mergeable = "CONFLICTING"` then
`get_pr_review_readiness_analysis` returns recommendation
`"resolve_conflicts"`, `ready_for_review = false` and the single reason
`"Has merge conflicts"`, whatever the draft flag, commit messages and
changed files are. -/
theorem conflicting_forces_resolve_conflicts (pr_num : Nat)
    (pr_data : PRData) (commits changes : List String)
    (detailed : List FileChange) (h : pr_data.mergeable = "CONFLICTING") :
    (get_pr_review_readiness_analysis pr_num pr_data commits changes
        detailed).recommendation = "resolve_conflicts" ∧
    (get_pr_review_readiness_analysis pr_num pr_data commits changes
        detailed).ready_for_review = false ∧
    (get_pr_review_readiness_analysis pr_num pr_data commits changes
        detailed).reasons = ["Has merge conflicts"] := by
  simp [get_pr_review_readiness_analysis, h]

/-- C1 witness: the conflicting rule at a concrete signal (a draft with a
completion commit and a real implementation). -/
theorem conflicting_forces_resolve_conflicts_witness :
    (get_pr_review_readiness_analysis 3 ⟨true, "CONFLICTING", 10, 10⟩
        ["Complete"] ["a.ts", "b.ts"] []).recommendation =
      "resolve_conflicts" ∧
    (get_pr_review_readiness_analysis 3 ⟨true, "CONFLICTING", 10, 10⟩
        ["Complete"] ["a.ts", "b.ts"] []).ready_for_review = false ∧
    (get_pr_review_readiness_analysis 3 ⟨true, "CONFLICTING", 10, 10⟩
        ["Complete"] ["a.ts", "b.ts"] []).reasons =
      ["Has merge conflicts"] :=
  conflicting_forces_resolve_conflicts 3 ⟨true, "CONFLICTING", 10, 10⟩
    ["Complete"] ["a.ts", "b.ts"] [] rfl

/-- C2 counterexample: a draft with `additions + deletions ≤ 1000` (here
`0 + 0`) gets status `"planning"`, not `"draft"` as the claim states. -/
theorem small_draft_planning_cex :
    pr_status "" true 0 0 = "planning" ∧
    (pr_status "" true 0 0 == "draft") = false := by
  decide

/-- C2 amended: in `pr_status`, a draft (whose commit message therefore
never triggers the non-draft completion rule) with
`additions + deletions ≤ 1000` gets status `"planning"`; a draft with
`additions + deletions > 1000` gets `"draft"`, except at the fingerprint
`(additions, deletions) = (3510, 5146)` which is excluded from counting as
real implementation and gets `"planning"`. -/
theorem pr_status_draft_amended (msg : String) (a d : Nat) :
    (a + d ≤ 1000 → pr_status msg true a d = "planning") ∧
    (a + d > 1000 →
      pr_status msg true a d =
        if a = 3510 ∧ d = 5146 then "planning" else "draft") := by
  constructor
  · intro h
    have hgt : ¬(a + d > 1000) := by omega
    simp [pr_status, hgt]
  · intro h
    by_cases hf : a = 3510 ∧ d = 5146
    · simp [pr_status, h, hf.1, hf.2]
    · simp [pr_status, h, hf]

/-- C2 amended witness: the amended rule at concrete drafts: a small one,
a large one, and the fingerprint pair. -/
theorem pr_status_draft_amended_witness :
    pr_status "" true 0 0 = "planning" ∧
    pr_status "" true 2000 0 = "draft" ∧
    pr_status "" true 3510 5146 = "planning" := by
  refine ⟨(pr_status_draft_amended "" 0 0).1 (by omega), ?_, ?_⟩
  · have h := (pr_status_draft_amended "" 2000 0).2 (by omega)
    simpa using h
  · have h := (pr_status_draft_amended "" 3510 5146).2 (by omega)
    simpa using h

/-- C3: `priority_for_action` maps `"resolve_conflicts"` to `"high"`,
`"review_ready"` and `"investigate"` to `"medium"`, and every other action
to `"normal"`. -/
theorem priority_for_action_spec (action : String) :
    priority_for_action action =
      if action = "resolve_conflicts" then "high"
      else if action = "review_ready" then "medium"
      else if action = "investigate" then "medium"
      else "normal" := by
  simp only [priority_for_action]
  split_ifs <;> simp_all

/-- C4: `action_needed` returns `"resolve_conflicts"` on CONFLICTING;
otherwise `"review_ready"` when the status is ready-for-review on a
MERGEABLE PR; otherwise `"investigate"` when planning for more than 30
minutes or any status for more than 60; otherwise `"wait"`. -/
theorem action_needed_spec (mergeable status : String) (elapsed : Int) :
    action_needed mergeable status elapsed =
      if mergeable = "CONFLICTING" then "resolve_conflicts"
      else if status = "ready_for_review" ∧ mergeable = "MERGEABLE" then
        "review_ready"
      else if (status = "planning" ∧ elapsed > 30) ∨ elapsed > 60 then
        "investigate"
      else "wait" := by
  simp only [action_needed, Bool.and_eq_true, beq_iff_eq, decide_eq_true_eq]
  split_ifs <;> first | rfl | tauto

/-- C5: scenario B: a draft, mergeable PR whose only recent commit is
`"Complete"` and whose single changed file is `"a.ts"` is classified
`convert_to_ready` with confidence `high`. -/
theorem scenario_b_convert_to_ready :
    (get_pr_review_readiness_analysis 1 ⟨true, "MERGEABLE", 0, 0⟩
        ["Complete"] ["a.ts"] []).recommendation = "convert_to_ready" ∧
    (get_pr_review_readiness_analysis 1 ⟨true, "MERGEABLE", 0, 0⟩
        ["Complete"] ["a.ts"] []).confidence = "high" := by
  decide

/-- C6: `yarn_lock_only` and `has_real_implementation` are never both true
(the first needs exactly one changed file, the second more than one), and
both are false on an empty change list and on a single non-lock file. -/
theorem yarn_flags_never_both :
    (∀ (commits changes : List String) (detailed : List FileChange),
      ((check_pr_readiness commits changes detailed).yarn_lock_only &&
        (check_pr_readiness commits changes detailed).has_real_implementation)
        = false) ∧
    (check_pr_readiness [] [] []).yarn_lock_only = false ∧
    (check_pr_readiness [] [] []).has_real_implementation = false ∧
    (check_pr_readiness [] ["a.ts"] []).yarn_lock_only = false ∧
    (check_pr_readiness [] ["a.ts"] []).has_real_implementation = false := by
  refine ⟨?_, by decide, by decide, by decide, by decide⟩
  intro commits changes detailed
  rcases changes with _ | ⟨f, _ | ⟨g, t⟩⟩ <;> simp [check_pr_readiness]

/-- C7: the classifier's `reasons` list always has length exactly one, and
its single element is the reason string of the first matching rule of the
decision chain. -/
theorem reasons_singleton_matching_rule (pr_num : Nat) (pr_data : PRData)
    (commits changes : List String) (detailed : List FileChange) :
    (get_pr_review_readiness_analysis pr_num pr_data commits changes
        detailed).reasons.length = 1 ∧
    (get_pr_review_readiness_analysis pr_num pr_data commits changes
        detailed).reasons =
      [let rc := check_pr_readiness commits changes detailed
       if pr_data.mergeable = "CONFLICTING" then "Has merge conflicts"
       else if rc.yarn_lock_only = true then
         "Only yarn.lock changes - likely setup phase"
       else if rc.has_completion_indicators = true ∧ pr_data.isDraft = false
         then "Has completion indicators in commits"
       else if rc.has_real_implementation = true ∧ pr_data.isDraft = false
         then "Has substantial implementation"
       else if pr_data.isDraft = true ∧ rc.has_completion_indicators = true
         then "Claims completion but still marked as draft"
       else if rc.has_planning_indicators = true then
         "Still in planning/setup phase"
       else "Unclear status - needs manual review"] := by
  simp only [get_pr_review_readiness_analysis]
  split_ifs <;> simp_all

/-- C8: `collect_pr_data` produces exactly one output entry per input PR
number, and a number whose data fetch returns nothing yields the
`{"error": "PR not found", action_needed: "investigate", priority: "high"}`
placeholder at the same position instead of being dropped. -/
theorem collect_pr_data_one_entry_per_pr (elapsedOf : String → Int)
    (branchProg : String → BranchProgress) (commitsOf : Nat → List String)
    (fetchData : Nat → Option FullPRData)
    (fetchReadiness : Nat → Option ReadinessResult)
    (pr_numbers : List Nat) :
    (collect_pr_data elapsedOf branchProg commitsOf fetchData fetchReadiness
        pr_numbers).length = pr_numbers.length ∧
    ∀ (i : Nat) (h1 : i < pr_numbers.length)
      (h2 : i < (collect_pr_data elapsedOf branchProg commitsOf fetchData
        fetchReadiness pr_numbers).length),
      fetchData (pr_numbers.get ⟨i, h1⟩) = none →
      (collect_pr_data elapsedOf branchProg commitsOf fetchData
          fetchReadiness pr_numbers).get ⟨i, h2⟩ =
        PREntry.notFound (pr_numbers.get ⟨i, h1⟩) "PR not found"
          "investigate" "high" := by
  refine ⟨by simp [collect_pr_data], ?_⟩
  intro i h1 h2 hnone
  simp only [collect_pr_data, List.get_eq_getElem, List.getElem_map] at *
  simp [processOne, hnone]

/-- C8 witness: a single PR number whose fetch returns nothing produces a
one-element list holding the placeholder entry. -/
theorem collect_pr_data_one_entry_per_pr_witness :
    (collect_pr_data (fun _ => 0) (fun _ => ⟨0, ""⟩) (fun _ => [])
        (fun _ => none) (fun _ => none) [7]).length = 1 ∧
    (collect_pr_data (fun _ => 0) (fun _ => ⟨0, ""⟩) (fun _ => [])
        (fun _ => none) (fun _ => none) [7]).get ⟨0, by decide⟩ =
      PREntry.notFound 7 "PR not found" "investigate" "high" := by
  refine ⟨?_, ?_⟩
  · exact (collect_pr_data_one_entry_per_pr (fun _ => 0) (fun _ => ⟨0, ""⟩)
      (fun _ => []) (fun _ => none) (fun _ => none) [7]).1
  · exact (collect_pr_data_one_entry_per_pr (fun _ => 0) (fun _ => ⟨0, ""⟩)
      (fun _ => []) (fun _ => none) (fun _ => none) [7]).2 0 (by decide)
      (by decide) rfl

/-- C9: `generate_summary` always satisfies
`blocked + ready_for_review + needs_investigation + normal_progress =
total_prs` (the normal count is defined as the difference), and since one
PR can fall in several of the first three buckets, `normal_progress_count`
can be negative — as for a single conflicting PR that is 50 minutes old. -/
theorem summary_counts_partition (prs : List SummaryPR)
    (issues : List SummaryIssue) :
    (((generate_summary prs issues).blocked_count : Int) +
        (generate_summary prs issues).ready_for_review_count +
        (generate_summary prs issues).needs_investigation_count +
        (generate_summary prs issues).normal_progress_count =
      (generate_summary prs issues).total_prs) ∧
    (generate_summary [⟨some "CONFLICTING", some "draft", some 50⟩]
        []).normal_progress_count < 0 := by
  refine ⟨?_, by decide⟩
  simp only [generate_summary]
  omega

/-- C10: in `analyze_copilot_progress`, a PR with `additions = 3510`,
`deletions = 5146` and more than 20 elapsed minutes is reported as
`status = "yarn_lock_only"`, `action = "investigate"`,
`priority = "medium"` regardless of every other field — the fingerprint
check precedes (and overrides) conflict detection on this path. -/
theorem copilot_fingerprint_overrides (elapsedOf : String → Int)
    (issue_num : Nat) (pd : CopilotPRData) (bp : BranchProgress)
    (ha : pd.additions = 3510) (hd : pd.deletions = 5146)
    (he : elapsedOf pd.createdAt > 20) :
    analyze_copilot_progress elapsedOf issue_num (some pd) bp =
      { status := "yarn_lock_only"
        action := "investigate"
        priority := "medium"
        message := some "PR contains only yarn.lock changes - may indicate setup phase or blocked work"
        elapsed_minutes := none
        commit_count := none
        latest_commit := none } := by
  simp [analyze_copilot_progress, ha, hd, he]

/-- C10 witness: the fingerprint rule fires at a concrete conflicting PR
25 minutes old. -/
theorem copilot_fingerprint_overrides_witness :
    analyze_copilot_progress (fun _ => 25) 5
        (some ⟨"2025-01-01T00:00:00Z", 3510, 5146, false, "CONFLICTING"⟩)
        ⟨0, ""⟩ =
      { status := "yarn_lock_only"
        action := "investigate"
        priority := "medium"
        message := some "PR contains only yarn.lock changes - may indicate setup phase or blocked work"
        elapsed_minutes := none
        commit_count := none
        latest_commit := none } :=
  copilot_fingerprint_overrides (fun _ => 25) 5
    ⟨"2025-01-01T00:00:00Z", 3510, 5146, false, "CONFLICTING"⟩ ⟨0, ""⟩
    rfl rfl (by decide)

end ProcessStatus
